import Mathlib

/-!
Shallow embedding of the mindfulme-api backend (Rust/axum) core:
error taxonomy (`src/errors.rs`), password hashing (`src/models/user.rs`),
token issuance/verification (`src/utils/token.rs`), the auth/check-in
route handlers (`src/routes/auth.rs`, `src/routes/checkin.rs`), and the
entity models (`src/models/user.rs`, `src/models/checkin.rs`).

Modelling conventions:
- MongoDB `ObjectId` is an opaque wrapper of a `Nat`; `to_hex` is modelled
  as an injective rendering of that value.
- BSON `DateTime` (the `Date` alias of `utils/date.rs`) is an `Int` of
  milliseconds since the Unix epoch.
- Clock reads (`chrono::Local::now()`, `utils/date::now()`) become explicit
  parameters, one per textual call site, so that distinct reads may return
  distinct instants exactly as in the source.
- `tokio::task::spawn_blocking(..).await` is modelled by a `JoinOutcome`
  parameter: the join either succeeds or fails with a `JoinError` message.
- bcrypt is idealised as a collision-free keyed encoding: the hash string
  records the cost and the plaintext behind the `$2b$` tag, `verify`
  parses that shape back.  One-way-ness is not modelled; the format
  guarantees (output is tagged and strictly longer than its input,
  `verify` fails on a string not of that shape) are.
- The document store is a `List` of entities in insertion order;
  `find_one` returns the first match, `create` appends with a fresh id.
-/

/-- MongoDB ObjectId (`bson::oid::ObjectId`), modelled as an opaque unique value. -/
structure ObjectId where
  val : Nat
deriving DecidableEq, Repr

/-- `ObjectId::to_hex`: canonical string rendering, modelled as an injective
rendering of the model value (the 24-hex-digit detail is immaterial). -/
def ObjectId.to_hex (o : ObjectId) : String :=
  Nat.repr o.val

/-- `utils/date::Date` = `bson::DateTime`: milliseconds since the Unix epoch. -/
def Date := Int
deriving DecidableEq

instance : Repr Date := inferInstanceAs (Repr Int)

instance : LE Date := inferInstanceAs (LE Int)

instance : LT Date := inferInstanceAs (LT Int)

instance (a b : Date) : Decidable (a ≤ b) := Int.decLe a b

instance (a b : Date) : Decidable (a < b) := Int.decLt a b

/-- HTTP status codes used by `errors.rs`, as bare numerals. -/
def StatusCode := Nat
deriving DecidableEq

instance : Repr StatusCode := inferInstanceAs (Repr Nat)

def StatusCode.BAD_REQUEST : StatusCode := (400 : Nat)
def StatusCode.UNAUTHORIZED : StatusCode := (401 : Nat)
def StatusCode.NOT_FOUND : StatusCode := (404 : Nat)
def StatusCode.LOCKED : StatusCode := (423 : Nat)
def StatusCode.INTERNAL_SERVER_ERROR : StatusCode := (500 : Nat)
def StatusCode.OK : StatusCode := (200 : Nat)
def StatusCode.CREATED : StatusCode := (201 : Nat)

/-- `errors.rs::AuthenticateError`. -/
inductive AuthenticateError where
  | WrongCredentials
  | TokenCreation
  | InvalidToken
  | Locked
deriving DecidableEq, Repr

/-- `errors.rs::Error`.  Variants wrapping foreign error types
(`WitherError`, `MongoError`, `bson::de::Error`, `JoinError`, `BcryptError`)
carry that error's display string. -/
inductive Error where
  | Wither (inner : String)
  | Mongo (inner : String)
  | ParseObjectID (s : String)
  | SerializeMongoResponse (inner : String)
  | Authenticate (inner : AuthenticateError)
  | BadRequest (message : String)
  | NotFound
  | RunSyncTask (inner : String)
  | HashPassword (inner : String)
  | TokenCreation (s : String)
  | InvalidPassword (s : String)
deriving DecidableEq, Repr

/-- `Error::get_codes`: the `(StatusCode, u16)` pair of each variant,
transcribed from the `match` in `errors.rs`. -/
def Error.get_codes : Error → StatusCode × Nat
  | .ParseObjectID _ => (StatusCode.BAD_REQUEST, 40001)
  | .BadRequest _ => (StatusCode.BAD_REQUEST, 40002)
  | .NotFound => (StatusCode.NOT_FOUND, 40003)
  | .Authenticate .WrongCredentials => (StatusCode.UNAUTHORIZED, 40004)
  | .Authenticate .InvalidToken => (StatusCode.UNAUTHORIZED, 40005)
  | .Authenticate .Locked => (StatusCode.LOCKED, 40006)
  | .TokenCreation _ => (StatusCode.INTERNAL_SERVER_ERROR, 40007)
  | .Authenticate .TokenCreation => (StatusCode.INTERNAL_SERVER_ERROR, 5001)
  | .Wither _ => (StatusCode.INTERNAL_SERVER_ERROR, 5002)
  | .Mongo _ => (StatusCode.INTERNAL_SERVER_ERROR, 5003)
  | .SerializeMongoResponse _ => (StatusCode.INTERNAL_SERVER_ERROR, 5004)
  | .RunSyncTask _ => (StatusCode.INTERNAL_SERVER_ERROR, 5005)
  | .HashPassword _ => (StatusCode.INTERNAL_SERVER_ERROR, 5006)
  | .InvalidPassword _ => (StatusCode.UNAUTHORIZED, 40008)

/-- The `Display` string of `AuthenticateError` (thiserror `#[error(..)]`). -/
def AuthenticateError.message : AuthenticateError → String
  | .WrongCredentials => "Wrong authentication credentials"
  | .TokenCreation => "Failed to create authentication token"
  | .InvalidToken => "Invalid authentication credentials"
  | .Locked => "User is locked"

/-- The `Display` string of `Error` (thiserror `#[error(..)]` per variant;
transparent variants show the wrapped error's string). -/
def Error.message : Error → String
  | .Wither inner => inner
  | .Mongo inner => inner
  | .ParseObjectID s => "Error parsing ObjectID " ++ s
  | .SerializeMongoResponse inner => inner
  | .Authenticate a => a.message
  | .BadRequest m => m
  | .NotFound => "Not found"
  | .RunSyncTask inner => inner
  | .HashPassword inner => inner
  | .TokenCreation s => s
  | .InvalidPassword s => "Error invalid password " ++ s

/-- `Error::bad_request_with_message`. -/
def Error.bad_request_with_message (message : String) : Error :=
  Error.BadRequest message

/-- `Error::unauthorized_with_message`: note the source discards its
`message` argument and always yields `WrongCredentials`. -/
def Error.unauthorized_with_message (_message : String) : Error :=
  Error.Authenticate AuthenticateError.WrongCredentials

/-- The JSON body built by `impl IntoResponse for Error`. -/
structure ErrorBody where
  success : Bool
  message : String
  error : String
deriving DecidableEq, Repr

/-- `Error::into_response`: the `(status, body)` pair actually sent. -/
def Error.into_response (e : Error) : StatusCode × ErrorBody :=
  (e.get_codes.1, { success := false, message := e.message, error := Nat.repr e.get_codes.2 })

/-- Discriminator for the failure kinds of `Error` (one per `get_codes` arm). -/
inductive ErrorKind where
  | wither | mongo | parseObjectID | serializeMongoResponse
  | authWrongCredentials | authTokenCreation | authInvalidToken | authLocked
  | badRequest | notFound | runSyncTask | hashPassword
  | tokenCreation | invalidPassword
deriving DecidableEq, Repr, Fintype

/-- The failure kind of an `Error` value. -/
def Error.kind : Error → ErrorKind
  | .Wither _ => .wither
  | .Mongo _ => .mongo
  | .ParseObjectID _ => .parseObjectID
  | .SerializeMongoResponse _ => .serializeMongoResponse
  | .Authenticate .WrongCredentials => .authWrongCredentials
  | .Authenticate .TokenCreation => .authTokenCreation
  | .Authenticate .InvalidToken => .authInvalidToken
  | .Authenticate .Locked => .authLocked
  | .BadRequest _ => .badRequest
  | .NotFound => .notFound
  | .RunSyncTask _ => .runSyncTask
  | .HashPassword _ => .hashPassword
  | .TokenCreation _ => .tokenCreation
  | .InvalidPassword _ => .invalidPassword

/-! ## bcrypt model (`bcrypt` crate as used by `src/models/user.rs`) -/

/-- Errors of the `bcrypt` crate surfaced to this code: an out-of-range
cost on `hash`, or a stored value that is not a bcrypt hash on `verify`. -/
inductive BcryptError where
  | CostNotAllowed (cost : Nat)
  | InvalidHash (h : String)
deriving DecidableEq, Repr

/-- bcrypt's valid cost range (`bcrypt::MIN_COST = 4`, `MAX_COST = 31`). -/
def bcryptCostOk (cost : Nat) : Bool :=
  4 ≤ cost && cost ≤ 31

/-- Idealised bcrypt digest: a tagged encoding `"$2b$" ++ cost ++ "$" ++ p`
of the cost and plaintext.  Collision-freeness of the real digest becomes
injectivity of the encoding; one-way-ness is not modelled (no claim needs
it).  The output is always strictly longer than the plaintext, matching
the fixed 60-character format of real bcrypt against the ≤ 72-byte inputs
it accepts. -/
def bcryptDigest (plaintext : String) (cost : Nat) : String :=
  "$2b$" ++ Nat.repr cost ++ "$" ++ plaintext

/-- `bcrypt::hash(password, cost)`. -/
def bcrypt.hash (password : String) (cost : Nat) : Except BcryptError String :=
  if bcryptCostOk cost then .ok (bcryptDigest password cost)
  else .error (.CostNotAllowed cost)

/-- Read a bcrypt cost field: a non-empty run of decimal digits. -/
def costFromDigits (cs : List Char) : Option Nat :=
  if cs ≠ [] ∧ ∀ c ∈ cs, c.isDigit then
    some (cs.foldl (fun n c => n * 10 + (c.toNat - 48)) 0)
  else none

/-- Parse an idealised bcrypt digest back into `(cost, plaintext)`:
the `$2b$` tag, the decimal cost up to the next `$`, then the payload.
`none` on any string not of that shape (a malformed stored hash). -/
def bcryptParse (h : String) : Option (Nat × String) :=
  match h.data with
  | '$' :: '2' :: 'b' :: '$' :: rest =>
    let cs := rest.takeWhile (fun ch => ch ≠ '$')
    match rest.drop cs.length with
    | '$' :: ps =>
      match costFromDigits cs with
      | some cost => if bcryptCostOk cost then some (cost, String.mk ps) else none
      | none => none
    | _ => none
  | _ => none

/-- `bcrypt::verify(password, hash)`: parse the stored hash, re-derive the
digest of `password` under the stored cost, and compare; a stored value
that is not a bcrypt hash is an `InvalidHash` error, a mismatch is a
normal `Ok false`. -/
def bcrypt.verify (password h : String) : Except BcryptError Bool :=
  match bcryptParse h with
  | some (cost, _) => .ok (bcryptDigest password cost == h)
  | none => .error (.InvalidHash h)

/-- Outcome of `tokio::task::spawn_blocking(..).await`: the join handle
either delivers the closure's result or fails with a `JoinError`. -/
inductive JoinOutcome where
  | ok
  | joinFailed (err : String)
deriving DecidableEq, Repr

/-- `bcrypt::DEFAULT_COST`. -/
def DEFAULT_COST : Nat := 12

/-- `models/user.rs::hash_password` (non-test build: `cost = DEFAULT_COST`):
join failure maps to `Error::RunSyncTask`, a bcrypt failure to
`Error::HashPassword`. -/
def hash_password (password : String) (join : JoinOutcome) : Except Error String :=
  match join with
  | .joinFailed e => .error (Error.RunSyncTask e)
  | .ok =>
    match bcrypt.hash password DEFAULT_COST with
    | .ok h => .ok h
    | .error be => .error (Error.HashPassword (reprStr be))

/-- `models/user.rs::verify_password`: join failure maps to
`Error::RunSyncTask`; a bcrypt error (malformed stored hash) maps to
`Error::InvalidPassword("Invalid password")`; a mismatch is `Ok false`. -/
def verify_password (password h : String) (join : JoinOutcome) : Except Error Bool :=
  match join with
  | .joinFailed e => .error (Error.RunSyncTask e)
  | .ok =>
    match bcrypt.verify password h with
    | .ok b => .ok b
    | .error _ => .error (Error.InvalidPassword "Invalid password")

/-! ## User model (`src/models/user.rs`) -/

/-- `models/user.rs::User`. -/
structure User where
  id : Option ObjectId
  first_name : String
  last_name : String
  email : String
  password : String
  updated_at : Date
  created_at : Date
  locked_at : Option Date
deriving DecidableEq, Repr

/-- `User::new` — `utils/date.rs` is not in the sources; its `now()` is the
explicit `now` parameter (one clock read, used for both timestamps as in
the source's single `let now = date::now()`). -/
def User.new (first_name last_name email password_hash : String) (now : Date) : User :=
  { id := none
    first_name := first_name
    last_name := last_name
    email := email
    password := password_hash
    updated_at := now
    created_at := now
    locked_at := none }

/-- `models/user.rs::PublicUser`. -/
structure PublicUser where
  id : ObjectId
  first_name : String
  last_name : String
  email : String
  updated_at : Date
  created_at : Date
deriving DecidableEq, Repr

/-- `impl From<User> for PublicUser`: `user.id.unwrap()` panics when the
id is unassigned; the panic is modelled as `none`. -/
def PublicUser.fromUser (user : User) : Option PublicUser :=
  user.id.map fun i =>
    { id := i
      first_name := user.first_name
      last_name := user.last_name
      email := user.email
      updated_at := user.updated_at
      created_at := user.created_at }

/-! ## Token service (`src/utils/token.rs`) -/

/-- `utils/token.rs::TokenUser`. -/
structure TokenUser where
  id : ObjectId
  first_name : String
  last_name : String
  email : String
deriving DecidableEq, Repr

/-- `impl From<User> for TokenUser`: `user.id.unwrap()` panics when the id
is unassigned; the panic is modelled as `none`. -/
def TokenUser.fromUser (user : User) : Option TokenUser :=
  user.id.map fun i =>
    { id := i
      first_name := user.first_name
      last_name := user.last_name
      email := user.email }

/-- `utils/token.rs::Claims` (`exp`/`iat` are Unix-epoch seconds). -/
structure Claims where
  exp : Nat
  iat : Nat
  user : TokenUser
deriving DecidableEq, Repr

/-- `Claims::new`: the source reads the clock twice —
`exp = (now() + 1 day).timestamp()` first, then `iat = now().timestamp()` —
so the two reads are the two parameters `t_exp` and `t_iat`, in that
order; `none` models the `unwrap` panic on an unassigned user id. -/
def Claims.new (user : User) (t_exp t_iat : Nat) : Option Claims :=
  (TokenUser.fromUser user).map fun tu =>
    { exp := t_exp + 86400, iat := t_iat, user := tu }

/-- A JWT string, abstracted: either a structurally well-formed token
carrying its claims and the secret whose HMAC signed it (collision-free
idealisation of HS256), or a malformed string. -/
inductive Token where
  | signed (claims : Claims) (secret : String)
  | malformed (raw : String)
deriving DecidableEq, Repr

/-- The error kinds of `jsonwebtoken::errors::Error` this code can hit. -/
inductive JwtErrorKind where
  | InvalidToken
  | InvalidSignature
  | ExpiredSignature
deriving DecidableEq, Repr

/-- `jsonwebtoken::Validation::default().leeway`: 60 seconds (the crate's
default since v8; applied to the `exp` check). -/
def VALIDATION_leeway : Nat := 60

/-- `utils/token.rs::create`: encodes `Claims::new(user)` under `secret`.
HMAC-SHA256 signing of a serialisable struct cannot fail, so the
`map_err(TokenCreation)` arm is unreachable and `encode` is modelled as
always succeeding; `none` models the `unwrap` panic inside `Claims::new`
on an unassigned user id. -/
def token.create (user : User) (secret : String) (t_exp t_iat : Nat) :
    Option (Except Error Token) :=
  (Claims.new user t_exp t_iat).map fun claims =>
    .ok (Token.signed claims secret)

/-- `utils/token.rs::decode` at clock instant `now` (epoch seconds):
`jsonwebtoken::decode` rejects malformed tokens, then checks the HS256
signature, then validates `exp` per `Validation::default()` — the token is
expired iff `exp < now - leeway` (u64 arithmetic; `Nat` truncated
subtraction matches for every realistic `now`). -/
def token.decode (t : Token) (secret : String) (now : Nat) :
    Except JwtErrorKind Claims :=
  match t with
  | .malformed _ => .error .InvalidToken
  | .signed claims sigSecret =>
    if sigSecret ≠ secret then .error .InvalidSignature
    else if claims.exp < now - VALIDATION_leeway then .error .ExpiredSignature
    else .ok claims

/-! ## Check-in model (`src/models/checkin.rs`) -/

/-- `models/checkin.rs::valid_emotions`. -/
def valid_emotions : List String :=
  ["joy", "sadness", "anger", "fear", "disgust", "surprise"]

/-- `models/checkin.rs::Checkin` (`u8` ratings modelled as `Nat`). -/
structure Checkin where
  id : Option ObjectId
  user : ObjectId
  mood_rating : Nat
  primary_emotion : String
  intensity : Nat
  energy_level : Nat
  stress_level : Nat
  wellbeing : Nat
  notes : Option String
  updated_at : Date
  created_at : Date
deriving DecidableEq, Repr

/-- `Checkin::new` — `utils/date.rs` is not in the sources; its `now()` is
the explicit `now` parameter (one read, used for both timestamps). -/
def Checkin.new (user : ObjectId) (mood_rating : Nat) (primary_emotion : String)
    (intensity energy_level stress_level wellbeing : Nat) (notes : Option String)
    (now : Date) : Checkin :=
  { id := none
    user := user
    mood_rating := mood_rating
    primary_emotion := primary_emotion
    intensity := intensity
    energy_level := energy_level
    stress_level := stress_level
    wellbeing := wellbeing
    notes := notes
    updated_at := now
    created_at := now }

/-- `models/checkin.rs::PublicCheckin`. -/
structure PublicCheckin where
  id : ObjectId
  user : ObjectId
  mood_rating : Nat
  primary_emotion : String
  intensity : Nat
  energy_level : Nat
  stress_level : Nat
  wellbeing : Nat
  notes : Option String
  updated_at : Date
  created_at : Date
deriving DecidableEq, Repr

/-- `impl From<Checkin> for PublicCheckin`: `checkin.id.unwrap()` panics
when the id is unassigned; the panic is modelled as `none`. -/
def PublicCheckin.fromCheckin (checkin : Checkin) : Option PublicCheckin :=
  checkin.id.map fun i =>
    { id := i
      user := checkin.user
      mood_rating := checkin.mood_rating
      primary_emotion := checkin.primary_emotion
      intensity := checkin.intensity
      energy_level := checkin.energy_level
      stress_level := checkin.stress_level
      wellbeing := checkin.wellbeing
      notes := checkin.notes
      updated_at := checkin.updated_at
      created_at := checkin.created_at }

/-! ## Generic persistence layer

Modelled from the spec: `src/utils/models.rs` (`ModelExt`) is not in the
sources; §4.4 of the spec fixes its contract.  The store is a `List` of
entities in insertion order. -/

/-- Modelled from the spec: `ModelExt::find_one` — "returns the first match
under the store's natural ordering"; absence is a normal outcome. -/
def User.find_one (store : List User) (pred : User → Bool) : Option User :=
  store.find? pred

/-- Modelled from the spec: `ModelExt::create` — "persists, and returns the
entity with its newly assigned identifier populated"; the fresh id chosen
by the store is the `freshId` parameter. -/
def User.create (store : List User) (user : User) (freshId : ObjectId) :
    List User × User :=
  let created := { user with id := some freshId }
  (store ++ [created], created)

/-- Modelled from the spec: `ModelExt::create` for check-ins. -/
def Checkin.create (store : List Checkin) (checkin : Checkin) (freshId : ObjectId) :
    List Checkin × Checkin :=
  let created := { checkin with id := some freshId }
  (store ++ [created], created)

/-- Insert into a list kept sorted by `created_at`, newest first. -/
def insertByCreatedAtDesc (c : Checkin) : List Checkin → List Checkin
  | [] => [c]
  | d :: ds =>
    if d.created_at ≤ c.created_at then c :: d :: ds
    else d :: insertByCreatedAtDesc c ds

/-- Sort check-ins by `created_at`, newest first (the handler's
`sort(doc! \x7b "created_at": -1 \x7d)` option). -/
def sortByCreatedAtDesc (l : List Checkin) : List Checkin :=
  l.foldr insertByCreatedAtDesc []

/-- Modelled from the spec: `ModelExt::find_and_count` — "the count
reflects the total matches ignoring offset/limit, while the returned
sequence is the windowed page", here with the newest-first sort the
handler requests. -/
def Checkin.find_and_count (store : List Checkin) (filter : Checkin → Bool)
    (offset limit : Nat) : List Checkin × Nat :=
  let matched := store.filter filter
  (((sortByCreatedAtDesc matched).drop offset).take limit, matched.length)

/-- Modelled from the spec: `utils/pagination.rs` is not in the sources;
§4.5 — offset/limit derived from query parameters with defaults. -/
structure Pagination where
  offset : Nat
  limit : Nat
deriving DecidableEq, Repr

/-- `utils/custom_response.rs::ResponsePagination` (fields as used by the
check-in handler). -/
structure ResponsePagination where
  count : Nat
  offset : Nat
  limit : Nat
deriving DecidableEq, Repr

/-- Modelled from the spec: `utils/custom_response.rs` is not in the
sources; §4.5 — a success envelope of payload, optional pagination block
and status code (the builder's default status is 200 OK). -/
structure CustomResponse (α : Type) where
  body : α
  pagination : Option ResponsePagination
  status_code : StatusCode
deriving DecidableEq, Repr

/-! ## Calendar helpers (`chrono` as used by `src/routes/checkin.rs`) -/

/-- Gregorian leap-year test. -/
def isLeapYear (y : Int) : Bool :=
  (y % 4 == 0 && y % 100 != 0) || y % 400 == 0

/-- Days in a Gregorian month. -/
def daysInMonth (y : Int) (m : Nat) : Nat :=
  if m == 2 then (if isLeapYear y then 29 else 28)
  else if m == 4 || m == 6 || m == 9 || m == 11 then 30
  else 31

/-- `chrono::NaiveDate` as a plain year/month/day triple. -/
structure NaiveDate where
  year : Int
  month : Nat
  day : Nat
deriving DecidableEq, Repr

/-- `NaiveDate::from_ymd_opt`: `none` outside a real calendar date or
outside chrono's representable years (`MIN_YEAR = -(1 << 18)`,
`MAX_YEAR = (1 << 18) - 1`). -/
def NaiveDate.from_ymd_opt (y : Int) (m d : Nat) : Option NaiveDate :=
  if -262144 ≤ y && y ≤ 262143 && 1 ≤ m && m ≤ 12 && 1 ≤ d && d ≤ daysInMonth y m then
    some { year := y, month := m, day := d }
  else none

/-- Days between a civil date and 1970-01-01 (proleptic Gregorian;
Hinnant's algorithm in floor-division form). -/
def daysFromCivil (y : Int) (m d : Nat) : Int :=
  let yAdj : Int := if m ≤ 2 then y - 1 else y
  let era : Int := Int.fdiv yAdj 400
  let yoe : Int := yAdj - era * 400
  let mp : Int := (Int.ofNat m + 9) % 12
  let doy : Int := (153 * mp + 2) / 5 + Int.ofNat d - 1
  let doe : Int := yoe * 365 + yoe / 4 - yoe / 100 + doy
  era * 146097 + doe - 719468

/-- `DateTime::from_chrono(date.and_hms_opt(0, 0, 0).unwrap().and_utc())`:
midnight UTC of the date, as epoch milliseconds. -/
def NaiveDate.toUtcMillis (dt : NaiveDate) : Date :=
  (daysFromCivil dt.year dt.month dt.day * 86400000 : Int)

/-! ## Auth routes (`src/routes/auth.rs`) -/

/-- `routes/auth.rs::SignupRequest` (deserialized payload). -/
structure SignupRequest where
  email : String
  password : String
  first_name : String
  last_name : String
deriving DecidableEq, Repr

/-- `routes/auth.rs::SignupResponseData`.  `user_id` is the hex rendering
of the id; `created_at` is serialized as an RFC3339 string of this
instant, kept here as the instant itself; `token` is the signed JWT. -/
structure SignupResponseData where
  user_id : String
  email : String
  first_name : String
  last_name : String
  created_at : Date
  token : Token
deriving DecidableEq, Repr

/-- `routes/auth.rs::SignupResponse`. -/
structure SignupResponse where
  success : Bool
  message : String
  data : SignupResponseData
deriving DecidableEq, Repr

/-- `routes/auth.rs::SigninRequest`. -/
structure SigninRequest where
  email : String
  password : String
deriving DecidableEq, Repr

/-- `routes/auth.rs::SigninResponseData`. -/
structure SigninResponseData where
  user_id : String
  email : String
  first_name : String
  last_name : String
  token : Token
deriving DecidableEq, Repr

/-- `routes/auth.rs::SigninResponse`. -/
structure SigninResponse where
  success : Bool
  message : String
  data : SigninResponseData
deriving DecidableEq, Repr

/-- `routes/auth.rs::signup`.  Explicit parameters stand for the ambient
effects, in source order: `join` for the `spawn_blocking` join inside
`hash_password`, `freshId` for the id the store assigns in
`User::create`, `now` for `date::now()` inside `User::new`, `secret` for
`SETTINGS.auth.secret`, and `t_exp`/`t_iat` for the two clock reads
inside `Claims::new`.  The first component of the result is the store
after the call; `none` in the second models a panic (unreachable here
because `create` always assigns an id). -/
def signup (store : List User) (payload : SignupRequest) (join : JoinOutcome)
    (freshId : ObjectId) (now : Date) (secret : String) (t_exp t_iat : Nat) :
    List User × Option (Except Error SignupResponse) :=
  match User.find_one store (fun u => u.email == payload.email) with
  | some _ => (store, some (.error (Error.bad_request_with_message "Email already registered")))
  | none =>
    match hash_password payload.password join with
    | .error e => (store, some (.error e))
    | .ok password_hash =>
      let user := User.new payload.first_name payload.last_name payload.email password_hash now
      let (storeAfter, created) := User.create store user freshId
      match PublicUser.fromUser created with
      | none => (storeAfter, none)
      | some public_user =>
        match token.create created secret t_exp t_iat with
        | none => (storeAfter, none)
        | some (.error e) => (storeAfter, some (.error e))
        | some (.ok tok) =>
          (storeAfter, some (.ok
            { success := true
              message := "User registered successfully"
              data :=
                { user_id := public_user.id.to_hex
                  email := public_user.email
                  first_name := public_user.first_name
                  last_name := public_user.last_name
                  created_at := public_user.created_at
                  token := tok } }))

/-- `routes/auth.rs::signin`.  Parameters as in `signup`; sign-in never
writes, so the store is not returned. -/
def signin (store : List User) (payload : SigninRequest) (join : JoinOutcome)
    (secret : String) (t_exp t_iat : Nat) :
    Option (Except Error SigninResponse) :=
  match User.find_one store (fun u => u.email == payload.email) with
  | none => some (.error (Error.unauthorized_with_message "Invalid email or password"))
  | some user =>
    match verify_password payload.password user.password join with
    | .error e => some (.error e)
    | .ok is_valid =>
      if !is_valid then
        some (.error (Error.unauthorized_with_message "Invalid email or password"))
      else
        match token.create user secret t_exp t_iat with
        | none => none
        | some (.error e) => some (.error e)
        | some (.ok tok) =>
          match PublicUser.fromUser user with
          | none => none
          | some public_user =>
            some (.ok
              { success := true
                message := "User signed in successfully"
                data :=
                  { user_id := public_user.id.to_hex
                    email := public_user.email
                    first_name := public_user.first_name
                    last_name := public_user.last_name
                    token := tok } })

/-! ## Check-in routes (`src/routes/checkin.rs`) -/

/-- `routes/checkin.rs::CreateCheckinRequest` (`u8` ratings as `Nat`). -/
structure CreateCheckinRequest where
  mood_rating : Nat
  primary_emotion : String
  intensity : Nat
  energy_level : Nat
  stress_level : Nat
  wellbeing : Nat
  notes : Option String
deriving DecidableEq, Repr

/-- The `#[validate(range(min = 1, max = 5))]` bound of the validator crate. -/
def ratingInRange (r : Nat) : Bool :=
  1 ≤ r && r ≤ 5

/-- The fields of a `CreateCheckinRequest` whose range annotation fails,
in declaration order — the content of the `ValidationErrors` value
`payload.validate()` returns. -/
def ratingFieldErrors (p : CreateCheckinRequest) : List String :=
  (if ratingInRange p.mood_rating then [] else ["mood_rating"]) ++
  (if ratingInRange p.intensity then [] else ["intensity"]) ++
  (if ratingInRange p.energy_level then [] else ["energy_level"]) ++
  (if ratingInRange p.stress_level then [] else ["stress_level"]) ++
  (if ratingInRange p.wellbeing then [] else ["wellbeing"])

/-- The `format!("Validation error: \x7b:?\x7d", e)` message: the debug
rendering of `ValidationErrors` is modelled as the list of failing
fields. -/
def validationErrorMessage (p : CreateCheckinRequest) : String :=
  "Validation error: " ++ String.intercalate ", " (ratingFieldErrors p)

/-- The MongoDB filter document the list handler builds:
`\x7b "user": id \x7d`, optionally with a `created_at` `$gte`/`$lt` range. -/
structure CheckinQuery where
  user : ObjectId
  created_at_range : Option (Date × Date)
deriving DecidableEq, Repr

/-- Whether a stored check-in matches a `CheckinQuery`. -/
def checkinMatches (q : CheckinQuery) (c : Checkin) : Bool :=
  c.user == q.user &&
    match q.created_at_range with
    | none => true
    | some (s, e) => decide (s ≤ c.created_at) && decide (c.created_at < e)

/-- `routes/checkin.rs::create_checkin`: validator ranges first, then the
emotion whitelist, then persist and project.  `freshId`/`now` as in
`signup`; the first component is the store after the call. -/
def create_checkin (store : List Checkin) (user : TokenUser)
    (payload : CreateCheckinRequest) (freshId : ObjectId) (now : Date) :
    List Checkin × Option (Except Error (CustomResponse PublicCheckin)) :=
  if ratingFieldErrors payload ≠ [] then
    (store, some (.error (Error.bad_request_with_message (validationErrorMessage payload))))
  else if !(valid_emotions.contains payload.primary_emotion) then
    (store, some (.error (Error.bad_request_with_message "Invalid primary emotion")))
  else
    let checkin := Checkin.new user.id payload.mood_rating payload.primary_emotion
      payload.intensity payload.energy_level payload.stress_level payload.wellbeing
      payload.notes now
    let (storeAfter, created) := Checkin.create store checkin freshId
    match PublicCheckin.fromCheckin created with
    | none => (storeAfter, none)
    | some pub =>
      (storeAfter, some (.ok
        { body := pub, pagination := none, status_code := StatusCode.CREATED }))

/-- The query/pagination tail of `get_user_checkins`: run
`find_and_count`, project to public form, wrap with pagination metadata
(status 200, the builder default). -/
def runCheckinListQuery (store : List Checkin) (query : CheckinQuery)
    (pg : Pagination) :
    Option (Except Error (CustomResponse (List PublicCheckin))) :=
  let (page, count) := Checkin.find_and_count store (checkinMatches query) pg.offset pg.limit
  match page.mapM PublicCheckin.fromCheckin with
  | none => none
  | some pubs =>
    some (.ok
      { body := pubs
        pagination := some { count := count, offset := pg.offset, limit := pg.limit }
        status_code := StatusCode.OK })

/-- `routes/checkin.rs::get_user_checkins`: the month/year filter is built
only when both parameters are present (`if let (Some(month), Some(year))`);
only then is the month validated. -/
def get_user_checkins (store : List Checkin) (user : TokenUser)
    (month : Option Nat) (year : Option Int) (pg : Pagination) :
    Option (Except Error (CustomResponse (List PublicCheckin))) :=
  match month, year with
  | some m, some y =>
    if m < 1 || 12 < m then
      some (.error (Error.bad_request_with_message "Month must be between 1 and 12"))
    else
      match NaiveDate.from_ymd_opt y m 1 with
      | none => some (.error (Error.bad_request_with_message "Invalid date"))
      | some start_date =>
        let end_month := if m == 12 then 1 else m + 1
        let end_year := if m == 12 then y + 1 else y
        match NaiveDate.from_ymd_opt end_year end_month 1 with
        | none => some (.error (Error.bad_request_with_message "Invalid date"))
        | some end_date =>
          runCheckinListQuery store
            { user := user.id
              created_at_range := some (start_date.toUtcMillis, end_date.toUtcMillis) }
            pg
  | _, _ =>
    runCheckinListQuery store { user := user.id, created_at_range := none } pg

/-! ## Helper lemmas -/

lemma takeWhile_append_of_all {α : Type} {p : α → Bool} {l t : List α} {x : α}
    (h : ∀ a ∈ l, p a = true) (hx : p x = false) :
    (l ++ x :: t).takeWhile p = l := by
  induction l with
  | nil => simp [List.takeWhile, hx]
  | cons a as ih =>
    have ha : p a = true := h a (by simp)
    simp only [List.cons_append, List.takeWhile, ha]
    exact congrArg (a :: ·) (ih fun b hb => h b (by simp [hb]))

lemma drop_length_append {α : Type} (l t : List α) : (l ++ t).drop l.length = t := by
  induction l with
  | nil => rfl
  | cons a as ih => simp [ih]

lemma repr_all_digits_of_lt_32 :
    ∀ c < 32, ((Nat.repr c).data.all fun ch => ch ≠ '$') = true := by decide

lemma costFromDigits_repr_of_lt_32 :
    ∀ c < 32, costFromDigits (Nat.repr c).data = some c := by decide

lemma bcryptCostOk_lt_32 {c : Nat} (h : bcryptCostOk c = true) : c < 32 := by
  simp only [bcryptCostOk, Bool.and_eq_true, decide_eq_true_eq] at h
  omega

/-- The idealised digest parses back to exactly its cost and plaintext. -/
lemma bcryptParse_digest (p : String) {c : Nat} (hc : bcryptCostOk c = true) :
    bcryptParse (bcryptDigest p c) = some (c, p) := by
  have hlt := bcryptCostOk_lt_32 hc
  have hdata : (bcryptDigest p c).data
      = '$' :: '2' :: 'b' :: '$' :: ((Nat.repr c).data ++ '$' :: p.data) := by
    simp [bcryptDigest, String.data_append]
  have hall : ∀ a ∈ (Nat.repr c).data, (fun ch => decide (ch ≠ '$')) a = true := by
    have := repr_all_digits_of_lt_32 c hlt
    simpa [List.all_eq_true] using this
  have htake : (((Nat.repr c).data ++ '$' :: p.data).takeWhile fun ch => decide (ch ≠ '$'))
      = (Nat.repr c).data :=
    takeWhile_append_of_all hall (by simp)
  unfold bcryptParse
  rw [hdata]
  simp only [htake]
  rw [drop_length_append]
  rw [costFromDigits_repr_of_lt_32 c hlt]
  simp [hc]

/-- Distinct plaintexts give distinct digests at the same cost
(collision-freeness of the idealised bcrypt). -/
lemma bcryptDigest_inj {p q : String} {c : Nat} (hc : bcryptCostOk c = true)
    (h : bcryptDigest p c = bcryptDigest q c) : p = q := by
  have := congrArg bcryptParse h
  rw [bcryptParse_digest p hc, bcryptParse_digest q hc] at this
  exact (Prod.mk.injEq .. ▸ Option.some.injEq .. ▸ this).2

/-- The digest is never the plaintext itself: it is strictly longer. -/
lemma bcryptDigest_ne_plaintext (p : String) (c : Nat) : bcryptDigest p c ≠ p := by
  intro h
  have hlen := congrArg String.length h
  have h4 : "$2b$".length = 4 := rfl
  have h1 : "$".length = 1 := rfl
  simp only [bcryptDigest, String.length_append, h4, h1] at hlen
  omega

/-- `verify` accepts the digest of the same plaintext. -/
lemma bcrypt_verify_digest_self (p : String) {c : Nat} (hc : bcryptCostOk c = true) :
    bcrypt.verify p (bcryptDigest p c) = .ok true := by
  unfold bcrypt.verify
  rw [bcryptParse_digest p hc]
  simp

/-- `verify` rejects (with `Ok false`, not an error) a digest of a
different plaintext. -/
lemma bcrypt_verify_digest_ne {p q : String} {c : Nat} (hc : bcryptCostOk c = true)
    (hne : p ≠ q) : bcrypt.verify p (bcryptDigest q c) = .ok false := by
  unfold bcrypt.verify
  rw [bcryptParse_digest q hc]
  simp only [Except.ok.injEq]
  rw [beq_eq_false_iff_ne]
  exact fun h => hne (bcryptDigest_inj hc h)

lemma find?_append_none {α : Type} {p : α → Bool} {l : List α} (t : List α)
    (h : l.find? p = none) : (l ++ t).find? p = t.find? p := by
  induction l with
  | nil => rfl
  | cons a as ih =>
    rw [List.find?_cons] at h
    cases ha : p a with
    | true => simp [ha] at h
    | false =>
      simp only [ha] at h
      simpa [List.find?_cons, ha] using ih h

lemma find?_isSome_of_mem {α : Type} {p : α → Bool} {l : List α} {x : α}
    (hx : x ∈ l) (hpx : p x = true) : ∃ y, l.find? p = some y ∧ p y = true := by
  induction l with
  | nil => cases hx
  | cons a as ih =>
    cases ha : p a with
    | true => exact ⟨a, by simp [List.find?_cons, ha], ha⟩
    | false =>
      rcases List.mem_cons.mp hx with rfl | hmem
      · rw [ha] at hpx; cases hpx
      · rcases ih hmem with ⟨y, hy, hpy⟩
        exact ⟨y, by simp [List.find?_cons, ha, hy], hpy⟩

/-- Whether a `Result` value is `Ok`. -/
def exceptIsOk {ε α : Type} : Except ε α → Bool
  | .ok _ => true
  | .error _ => false

/-- Concrete account fixture (id already assigned by the store). -/
def demoUser : User :=
  { id := some ⟨1⟩
    first_name := "Ada"
    last_name := "Lovelace"
    email := "a@b.com"
    password := "h"
    updated_at := (0 : Int)
    created_at := (0 : Int)
    locked_at := none }

/-- The token-identity snapshot of `demoUser`. -/
def demoTokenUser : TokenUser :=
  { id := ⟨1⟩, first_name := "Ada", last_name := "Lovelace", email := "a@b.com" }

/-! ## Claim theorems -/

/-- C1 (amended): a token issued at instant `T` (both clock reads in
`Claims::new` returning `T`) under `secret` verifies under `secret'` at
instant `now` exactly when the secret matches and
`now ≤ T + 86400 + 60`: `Validation::default()` applies a 60-second
leeway to the `exp` check and no lower bound at all, so the token still
verifies throughout `[T+86400, T+86460]` — expiry is not strict at
`exp`. -/
theorem token_verification_window (user : User) (i : ObjectId) (hid : user.id = some i)
    (secret secret' : String) (T now : Nat) :
    ∃ tok, token.create user secret T T = some (.ok tok) ∧
      (exceptIsOk (token.decode tok secret' now) = true ↔
        (secret' = secret ∧ now ≤ T + 86400 + VALIDATION_leeway)) := by
  refine ⟨Token.signed
    { exp := T + 86400, iat := T
      user := { id := i, first_name := user.first_name,
                last_name := user.last_name, email := user.email } } secret, ?_, ?_⟩
  · simp [token.create, Claims.new, TokenUser.fromUser, hid]
  · simp only [token.decode, VALIDATION_leeway]
    by_cases hs : secret = secret'
    · subst hs
      rw [if_neg (fun h => h rfl)]
      by_cases hexp : T + 86400 < now - 60
      · rw [if_pos hexp]
        constructor
        · intro h; exact absurd h (by simp [exceptIsOk])
        · rintro ⟨-, hle⟩; omega
      · rw [if_neg hexp]
        constructor
        · intro _; exact ⟨rfl, by omega⟩
        · intro _; rfl
    · rw [if_pos hs]
      constructor
      · intro h; exact absurd h (by simp [exceptIsOk])
      · rintro ⟨h, -⟩; exact absurd h.symm hs

/-- C1 witness: instantiates `token_verification_window` at concrete
inputs and evaluates both sides. -/
theorem token_verification_window_witness :
    ∃ tok, token.create demoUser "s" 1000 1000 = some (.ok tok) ∧
      (exceptIsOk (token.decode tok "s" 87460) = true ↔
        ("s" = "s" ∧ 87460 ≤ 1000 + 86400 + VALIDATION_leeway)) :=
  token_verification_window demoUser ⟨1⟩ rfl "s" "s" 1000 87460

/-- C1 counterexample: a token issued at `T = 1000` with the issuing
secret still verifies at instant `T + 86400 = 87400`, where the claim
says verification must fail. -/
theorem token_verifies_at_exact_expiry_instant :
    token.create demoUser "s" 1000 1000
      = some (.ok (Token.signed { exp := 87400, iat := 1000, user := demoTokenUser } "s")) ∧
    exceptIsOk (token.decode
      (Token.signed { exp := 87400, iat := 1000, user := demoTokenUser } "s") "s" 87400) = true := by
  constructor
  · rfl
  · decide

/-- C6 (amended): `Claims::new` reads the clock twice — `exp` from the
first read (`t_exp + 86400`), `iat` from the second (`t_iat`) — so
`exp ≤ iat + 86400`, with equality exactly when both reads return the
same second; both fields are Unix-epoch seconds. -/
theorem claims_exp_iat_relationship (user : User) (i : ObjectId) (hid : user.id = some i)
    (t_exp t_iat : Nat) (horder : t_exp ≤ t_iat) :
    ∃ c, Claims.new user t_exp t_iat = some c ∧
      c.exp = t_exp + 86400 ∧ c.iat = t_iat ∧
      c.exp ≤ c.iat + 86400 ∧ (t_iat = t_exp → c.exp = c.iat + 86400) := by
  refine ⟨{ exp := t_exp + 86400, iat := t_iat
            user := { id := i, first_name := user.first_name,
                      last_name := user.last_name, email := user.email } }, ?_, rfl, rfl, ?_, ?_⟩
  · simp [Claims.new, TokenUser.fromUser, hid]
  · show t_exp + 86400 ≤ t_iat + 86400
    omega
  · intro h
    show t_exp + 86400 = t_iat + 86400
    omega

/-- C6 witness: instantiates `claims_exp_iat_relationship` at concrete
inputs. -/
theorem claims_exp_iat_relationship_witness :
    ∃ c, Claims.new demoUser 100 100 = some c ∧
      c.exp = 100 + 86400 ∧ c.iat = 100 ∧
      c.exp ≤ c.iat + 86400 ∧ (100 = 100 → c.exp = c.iat + 86400) :=
  claims_exp_iat_relationship demoUser ⟨1⟩ rfl 100 100 (Nat.le_refl 100)

/-- C6 counterexample: when the second clock read lands one second after
the first (`t_exp = 0`, `t_iat = 1`), the issued claims have
`exp = 86400 ≠ iat + 86400 = 86401`. -/
theorem claims_exp_not_iat_plus_day :
    Claims.new demoUser 0 1 = some { exp := 86400, iat := 1, user := demoTokenUser } ∧
    (86400 : Nat) ≠ 1 + 86400 := by
  constructor
  · rfl
  · decide

/-- The stable numeric code attached to each failure kind (the second
component of `get_codes`, as a function of the kind alone). -/
def codeOfKind : ErrorKind → Nat
  | .parseObjectID => 40001
  | .badRequest => 40002
  | .notFound => 40003
  | .authWrongCredentials => 40004
  | .authInvalidToken => 40005
  | .authLocked => 40006
  | .tokenCreation => 40007
  | .authTokenCreation => 5001
  | .wither => 5002
  | .mongo => 5003
  | .serializeMongoResponse => 5004
  | .runSyncTask => 5005
  | .hashPassword => 5006
  | .invalidPassword => 40008

lemma get_codes_snd_eq_codeOfKind : ∀ e : Error, e.get_codes.2 = codeOfKind e.kind := by
  intro e
  cases e <;> try rfl
  rename_i a
  cases a <;> rfl

lemma codeOfKind_inj : ∀ k k' : ErrorKind, codeOfKind k = codeOfKind k' → k = k' := by
  decide

/-- C9: every error response carries `success = false`, the error's
display message, and the stable numeric code (stringified); two errors
of different failure kinds always carry different numeric codes, so
clients can branch on the code alone. -/
theorem error_response_shape_and_distinct_codes (e eOther : Error)
    (hk : e.kind ≠ eOther.kind) :
    e.into_response.2.success = false ∧
    e.into_response.2.message = e.message ∧
    e.into_response.2.error = Nat.repr e.get_codes.2 ∧
    e.into_response.1 = e.get_codes.1 ∧
    e.get_codes.2 ≠ eOther.get_codes.2 := by
  refine ⟨rfl, rfl, rfl, rfl, ?_⟩
  rw [get_codes_snd_eq_codeOfKind e, get_codes_snd_eq_codeOfKind eOther]
  intro h
  exact hk (codeOfKind_inj _ _ h)

/-- C9 witness: instantiates `error_response_shape_and_distinct_codes`
at a `BadRequest` and a `NotFound` error. -/
theorem error_response_shape_and_distinct_codes_witness :
    (Error.BadRequest "boom").kind ≠ Error.NotFound.kind ∧
    ((Error.BadRequest "boom").into_response.2.success = false ∧
     (Error.BadRequest "boom").into_response.2.message = (Error.BadRequest "boom").message ∧
     (Error.BadRequest "boom").into_response.2.error = Nat.repr (Error.BadRequest "boom").get_codes.2 ∧
     (Error.BadRequest "boom").into_response.1 = (Error.BadRequest "boom").get_codes.1 ∧
     (Error.BadRequest "boom").get_codes.2 ≠ Error.NotFound.get_codes.2) :=
  ⟨by decide, error_response_shape_and_distinct_codes (Error.BadRequest "boom") Error.NotFound (by decide)⟩

/-- Concrete account fixture whose id was never assigned. -/
def demoNoIdUser : User := User.new "Ada" "Lovelace" "a@b.com" "h" (0 : Int)

/-- Concrete check-in fixture whose id was never assigned. -/
def demoNoIdCheckin : Checkin := Checkin.new ⟨1⟩ 3 "joy" 3 3 3 3 none (0 : Int)

/-- C10: the public/token projections (`PublicUser::from`,
`TokenUser::from`, `PublicCheckin::from`) call `.unwrap()` on the
entity's id: on an entity with `id = None` they panic (modelled `none`),
on an id-assigned entity they succeed and carry the id over; the
persistence layer's `create` always returns an id-assigned entity, so
entities obtained from it satisfy the precondition. -/
theorem projections_require_assigned_id (u : User) (c : Checkin) (i j : ObjectId)
    (ustore : List User) (cstore : List Checkin) :
    (u.id = none → PublicUser.fromUser u = none ∧ TokenUser.fromUser u = none) ∧
    (c.id = none → PublicCheckin.fromCheckin c = none) ∧
    (u.id = some i →
      PublicUser.fromUser u = some
        { id := i, first_name := u.first_name, last_name := u.last_name,
          email := u.email, updated_at := u.updated_at, created_at := u.created_at } ∧
      TokenUser.fromUser u = some
        { id := i, first_name := u.first_name, last_name := u.last_name, email := u.email }) ∧
    (c.id = some j →
      PublicCheckin.fromCheckin c = some
        { id := j, user := c.user, mood_rating := c.mood_rating,
          primary_emotion := c.primary_emotion, intensity := c.intensity,
          energy_level := c.energy_level, stress_level := c.stress_level,
          wellbeing := c.wellbeing, notes := c.notes,
          updated_at := c.updated_at, created_at := c.created_at }) ∧
    (User.create ustore u i).2.id = some i ∧
    (Checkin.create cstore c j).2.id = some j := by
  refine ⟨?_, ?_, ?_, ?_, rfl, rfl⟩ <;> intro h <;>
    simp [PublicUser.fromUser, TokenUser.fromUser, PublicCheckin.fromCheckin, h]

/-- C10 witness: instantiates `projections_require_assigned_id` on an
id-less fixture (panic case) and on an id-assigned fixture. -/
theorem projections_require_assigned_id_witness :
    (PublicUser.fromUser demoNoIdUser = none ∧ TokenUser.fromUser demoNoIdUser = none) ∧
    PublicCheckin.fromCheckin demoNoIdCheckin = none ∧
    TokenUser.fromUser demoUser = some demoTokenUser :=
  ⟨(projections_require_assigned_id demoNoIdUser demoNoIdCheckin ⟨1⟩ ⟨2⟩ [] []).1 rfl,
   (projections_require_assigned_id demoNoIdUser demoNoIdCheckin ⟨1⟩ ⟨2⟩ [] []).2.1 rfl,
   ((projections_require_assigned_id demoUser demoNoIdCheckin ⟨1⟩ ⟨2⟩ [] []).2.2.1 rfl).2⟩

/-- C8: `verify_password` (a) returns plain `Ok false` on a password
mismatch against a well-formed stored hash, (b) maps a malformed stored
hash to the `InvalidPassword` error (the spec's InvalidInput; stable code
40008), and (c) maps a failed dispatch onto the blocking pool to the
distinct `RunSyncTask` error (the spec's TaskFailure; stable code 5005,
a different failure kind), never swallowing it. -/
theorem verify_password_error_taxonomy (p q badHash jmsg : String) (c : Nat)
    (hc : bcryptCostOk c = true) (hne : p ≠ q) (hmal : bcryptParse badHash = none) :
    verify_password p (bcryptDigest q c) .ok = .ok false ∧
    verify_password p badHash .ok = .error (Error.InvalidPassword "Invalid password") ∧
    (Error.InvalidPassword "Invalid password").get_codes.2 = 40008 ∧
    verify_password p badHash (.joinFailed jmsg) = .error (Error.RunSyncTask jmsg) ∧
    (Error.RunSyncTask jmsg).get_codes.2 = 5005 ∧
    (Error.RunSyncTask jmsg).kind ≠ (Error.InvalidPassword "Invalid password").kind := by
  refine ⟨?_, ?_, rfl, rfl, rfl, fun h => ErrorKind.noConfusion h⟩
  · simp only [verify_password]
    rw [bcrypt_verify_digest_ne hc hne]
  · simp only [verify_password, bcrypt.verify, hmal]

/-- C8 witness: instantiates `verify_password_error_taxonomy` at concrete
strings and the default cost. -/
theorem verify_password_error_taxonomy_witness :
    verify_password "pw" (bcryptDigest "other" 12) .ok = .ok false ∧
    verify_password "pw" "nothash" .ok = .error (Error.InvalidPassword "Invalid password") ∧
    (Error.InvalidPassword "Invalid password").get_codes.2 = 40008 ∧
    verify_password "pw" "nothash" (.joinFailed "cancelled") = .error (Error.RunSyncTask "cancelled") ∧
    (Error.RunSyncTask "cancelled").get_codes.2 = 5005 ∧
    (Error.RunSyncTask "cancelled").kind ≠ (Error.InvalidPassword "Invalid password").kind :=
  verify_password_error_taxonomy "pw" "other" "nothash" "cancelled" 12
    (by decide) (by decide) (by decide)

/-- C2: signing up with an email already present in the store fails with
the domain-specific already-exists response — `BadRequest("Email already
registered")`, stable code 40002 (the spec's Conflict outcome) — for
every submitted password and name, and the store is unchanged (nothing
is persisted). -/
theorem signup_duplicate_email_conflict (store : List User) (payload : SignupRequest)
    (join : JoinOutcome) (freshId : ObjectId) (now : Date) (secret : String)
    (t_exp t_iat : Nat) (u : User) (hu : u ∈ store) (hemail : u.email = payload.email) :
    signup store payload join freshId now secret t_exp t_iat =
      (store, some (.error (Error.BadRequest "Email already registered"))) ∧
    (Error.BadRequest "Email already registered").get_codes =
      (StatusCode.BAD_REQUEST, 40002) := by
  refine ⟨?_, rfl⟩
  obtain ⟨v, hv, -⟩ :=
    find?_isSome_of_mem (p := fun w => w.email == payload.email) hu
      (by simp [hemail])
  simp [signup, User.find_one, hv, Error.bad_request_with_message]

/-- C2 witness: instantiates `signup_duplicate_email_conflict` on a
one-account store and a signup with the same email but different
password and names. -/
theorem signup_duplicate_email_conflict_witness :
    signup [demoUser] ⟨"a@b.com", "hunter2345", "Grace", "Hopper"⟩ .ok ⟨9⟩ (0 : Int) "sec" 5 5 =
      ([demoUser], some (.error (Error.BadRequest "Email already registered"))) ∧
    (Error.BadRequest "Email already registered").get_codes =
      (StatusCode.BAD_REQUEST, 40002) :=
  signup_duplicate_email_conflict [demoUser] ⟨"a@b.com", "hunter2345", "Grace", "Hopper"⟩
    .ok ⟨9⟩ (0 : Int) "sec" 5 5 demoUser (by simp) rfl

/-- Stored-account fixture whose password field holds the bcrypt hash of
`"password1"` under the default cost. -/
def demoStoredUser : User :=
  { demoUser with password := bcryptDigest "password1" DEFAULT_COST }

/-- C4 (two-run statement): a sign-in against a store with no account
under the submitted email (run A) and a sign-in against a store whose
matching account has a well-formed stored hash of a different password
(run B) produce the very same error value —
`Authenticate(WrongCredentials)` — hence the same status (401), the same
stable code (40004) and the same message; the two failure causes are
indistinguishable to the client.  (The handler's distinct internal
message argument is discarded by `unauthorized_with_message`.) -/
theorem signin_failures_indistinguishable
    (storeA : List User) (payloadA : SigninRequest) (joinA : JoinOutcome)
    (secretA : String) (ta tb : Nat)
    (storeB : List User) (payloadB : SigninRequest) (secretB : String) (tc td : Nat)
    (hA : storeA.find? (fun u => u.email == payloadA.email) = none)
    (u : User) (hB : storeB.find? (fun u => u.email == payloadB.email) = some u)
    (q : String) (c : Nat) (hc : bcryptCostOk c = true)
    (hpw : u.password = bcryptDigest q c) (hne : payloadB.password ≠ q) :
    signin storeA payloadA joinA secretA ta tb
      = some (.error (Error.Authenticate .WrongCredentials)) ∧
    signin storeB payloadB .ok secretB tc td
      = some (.error (Error.Authenticate .WrongCredentials)) ∧
    (Error.Authenticate AuthenticateError.WrongCredentials).into_response
      = (StatusCode.UNAUTHORIZED,
         { success := false, message := "Wrong authentication credentials", error := "40004" }) := by
  refine ⟨?_, ?_, rfl⟩
  · simp [signin, User.find_one, hA, Error.unauthorized_with_message]
  · have hver : verify_password payloadB.password u.password .ok = .ok false := by
      simp only [verify_password, hpw]
      rw [bcrypt_verify_digest_ne hc hne]
    simp [signin, User.find_one, hB, hver, Error.unauthorized_with_message]

/-- C4 witness: instantiates `signin_failures_indistinguishable` with an
empty store (unknown email) and a one-account store with a wrong
password. -/
theorem signin_failures_indistinguishable_witness :
    signin [] ⟨"x@y.z", "whatever"⟩ .ok "sec" 1 1
      = some (.error (Error.Authenticate .WrongCredentials)) ∧
    signin [demoStoredUser] ⟨"a@b.com", "wrong"⟩ .ok "sec" 2 2
      = some (.error (Error.Authenticate .WrongCredentials)) ∧
    (Error.Authenticate AuthenticateError.WrongCredentials).into_response
      = (StatusCode.UNAUTHORIZED,
         { success := false, message := "Wrong authentication credentials", error := "40004" }) :=
  signin_failures_indistinguishable [] ⟨"x@y.z", "whatever"⟩ .ok "sec" 1 1
    [demoStoredUser] ⟨"a@b.com", "wrong"⟩ "sec" 2 2 rfl
    demoStoredUser (by decide) "password1" DEFAULT_COST (by decide) rfl (by decide)

/-- C5: for a signup whose email is free, the persisted account's
password field is the bcrypt digest of the submitted plaintext — never
the plaintext itself — and a subsequent sign-in on the resulting store
with the same email and plaintext succeeds. -/
theorem signup_never_stores_plaintext_and_signin_roundtrip
    (store : List User) (payload : SignupRequest) (freshId : ObjectId) (now : Date)
    (secret secret2 : String) (t1 t2 t3 t4 : Nat)
    (hfree : store.find? (fun u => u.email == payload.email) = none) :
    ∃ created,
      signup store payload .ok freshId now secret t1 t2
        = (store ++ [created], some (.ok
            { success := true
              message := "User registered successfully"
              data :=
                { user_id := freshId.to_hex
                  email := payload.email
                  first_name := payload.first_name
                  last_name := payload.last_name
                  created_at := now
                  token := Token.signed
                    { exp := t1 + 86400, iat := t2
                      user := { id := freshId, first_name := payload.first_name,
                                last_name := payload.last_name, email := payload.email } }
                    secret } })) ∧
      created.password ≠ payload.password ∧
      created.password = bcryptDigest payload.password DEFAULT_COST ∧
      ∃ resp2, signin (store ++ [created]) ⟨payload.email, payload.password⟩ .ok secret2 t3 t4
        = some (.ok resp2) ∧ resp2.success = true := by
  have hcost : bcryptCostOk DEFAULT_COST = true := by decide
  have hhash : hash_password payload.password .ok
      = .ok (bcryptDigest payload.password DEFAULT_COST) := by
    simp [hash_password, bcrypt.hash, hcost]
  refine ⟨{ id := some freshId
            first_name := payload.first_name
            last_name := payload.last_name
            email := payload.email
            password := bcryptDigest payload.password DEFAULT_COST
            updated_at := now
            created_at := now
            locked_at := none }, ?_, ?_, rfl, ?_⟩
  · unfold signup
    rw [show User.find_one store (fun u => u.email == payload.email) = none from hfree, hhash]
    rfl
  · exact fun h => bcryptDigest_ne_plaintext payload.password DEFAULT_COST h
  · have hfind2 : (store ++
        [({ id := some freshId
            first_name := payload.first_name
            last_name := payload.last_name
            email := payload.email
            password := bcryptDigest payload.password DEFAULT_COST
            updated_at := now
            created_at := now
            locked_at := none } : User)]).find? (fun u => u.email == payload.email)
        = some { id := some freshId
                 first_name := payload.first_name
                 last_name := payload.last_name
                 email := payload.email
                 password := bcryptDigest payload.password DEFAULT_COST
                 updated_at := now
                 created_at := now
                 locked_at := none } := by
      rw [find?_append_none _ hfree]
      simp [List.find?]
    have hver : verify_password payload.password
        (bcryptDigest payload.password DEFAULT_COST) .ok = .ok true := by
      simp only [verify_password]
      rw [bcrypt_verify_digest_self payload.password hcost]
    refine ⟨{ success := true
              message := "User signed in successfully"
              data :=
                { user_id := freshId.to_hex
                  email := payload.email
                  first_name := payload.first_name
                  last_name := payload.last_name
                  token := Token.signed
                    { exp := t3 + 86400, iat := t4
                      user := { id := freshId, first_name := payload.first_name,
                                last_name := payload.last_name, email := payload.email } }
                    secret2 } }, ?_, rfl⟩
    simp [signin, User.find_one, hfind2, hver, token.create, Claims.new,
      TokenUser.fromUser, PublicUser.fromUser]

/-- C5 witness: instantiates
`signup_never_stores_plaintext_and_signin_roundtrip` on an empty store. -/
theorem signup_never_stores_plaintext_and_signin_roundtrip_witness :
    ∃ created,
      signup [] ⟨"a@b.com", "password1", "Ada", "Lovelace"⟩ .ok ⟨5⟩ (0 : Int) "sec" 10 11
        = ([] ++ [created], some (.ok
            { success := true
              message := "User registered successfully"
              data :=
                { user_id := (⟨5⟩ : ObjectId).to_hex
                  email := "a@b.com"
                  first_name := "Ada"
                  last_name := "Lovelace"
                  created_at := (0 : Int)
                  token := Token.signed
                    { exp := 10 + 86400, iat := 11
                      user := { id := ⟨5⟩, first_name := "Ada",
                                last_name := "Lovelace", email := "a@b.com" } }
                    "sec" } })) ∧
      created.password ≠ "password1" ∧
      created.password = bcryptDigest "password1" DEFAULT_COST ∧
      ∃ resp2, signin ([] ++ [created]) ⟨"a@b.com", "password1"⟩ .ok "sec2" 20 21
        = some (.ok resp2) ∧ resp2.success = true :=
  signup_never_stores_plaintext_and_signin_roundtrip []
    ⟨"a@b.com", "password1", "Ada", "Lovelace"⟩ ⟨5⟩ (0 : Int) "sec" "sec2" 10 11 20 21 rfl

lemma ratingInRange_iff (r : Nat) : ratingInRange r = true ↔ (1 ≤ r ∧ r ≤ 5) := by
  simp [ratingInRange]

lemma ratingFieldErrors_nil_iff (p : CreateCheckinRequest) :
    ratingFieldErrors p = [] ↔
      (ratingInRange p.mood_rating = true ∧ ratingInRange p.intensity = true ∧
       ratingInRange p.energy_level = true ∧ ratingInRange p.stress_level = true ∧
       ratingInRange p.wellbeing = true) := by
  unfold ratingFieldErrors
  cases h1 : ratingInRange p.mood_rating <;> cases h2 : ratingInRange p.intensity <;>
    cases h3 : ratingInRange p.energy_level <;> cases h4 : ratingInRange p.stress_level <;>
      cases h5 : ratingInRange p.wellbeing <;> simp

/-- C3: a check-in creation input with any of the five ratings outside
`[1,5]` or a primary-emotion label outside the fixed set is rejected
with a `BadRequest` (the spec's ValidationFailure, HTTP 400) and the
store is unchanged — nothing is persisted, not even partially. -/
theorem create_checkin_rejects_invalid_input (store : List Checkin) (user : TokenUser)
    (payload : CreateCheckinRequest) (freshId : ObjectId) (now : Date)
    (hbad : ¬(1 ≤ payload.mood_rating ∧ payload.mood_rating ≤ 5) ∨
            ¬(1 ≤ payload.intensity ∧ payload.intensity ≤ 5) ∨
            ¬(1 ≤ payload.energy_level ∧ payload.energy_level ≤ 5) ∨
            ¬(1 ≤ payload.stress_level ∧ payload.stress_level ≤ 5) ∨
            ¬(1 ≤ payload.wellbeing ∧ payload.wellbeing ≤ 5) ∨
            payload.primary_emotion ∉ valid_emotions) :
    (create_checkin store user payload freshId now).1 = store ∧
    ∃ msg, (create_checkin store user payload freshId now).2
        = some (.error (Error.BadRequest msg)) ∧
      (Error.BadRequest msg).get_codes.1 = StatusCode.BAD_REQUEST := by
  by_cases herr : ratingFieldErrors payload = []
  · have hall := (ratingFieldErrors_nil_iff payload).mp herr
    have hmem : payload.primary_emotion ∉ valid_emotions := by
      rcases hbad with h | h | h | h | h | h
      · exact absurd ((ratingInRange_iff _).mp hall.1) h
      · exact absurd ((ratingInRange_iff _).mp hall.2.1) h
      · exact absurd ((ratingInRange_iff _).mp hall.2.2.1) h
      · exact absurd ((ratingInRange_iff _).mp hall.2.2.2.1) h
      · exact absurd ((ratingInRange_iff _).mp hall.2.2.2.2) h
      · exact h
    refine ⟨?_, "Invalid primary emotion", ?_, rfl⟩ <;>
      simp [create_checkin, herr, hmem, Error.bad_request_with_message]
  · refine ⟨?_, validationErrorMessage payload, ?_, rfl⟩ <;>
      simp [create_checkin, herr, Error.bad_request_with_message]

/-- C3 witness: instantiates `create_checkin_rejects_invalid_input` with
`mood_rating = 6` (and separately exercises the emotion check through
the message value). -/
theorem create_checkin_rejects_invalid_input_witness :
    (create_checkin [] demoTokenUser ⟨6, "joy", 3, 3, 3, 3, none⟩ ⟨7⟩ (0 : Int)).1 = [] ∧
    ∃ msg, (create_checkin [] demoTokenUser ⟨6, "joy", 3, 3, 3, 3, none⟩ ⟨7⟩ (0 : Int)).2
        = some (.error (Error.BadRequest msg)) ∧
      (Error.BadRequest msg).get_codes.1 = StatusCode.BAD_REQUEST :=
  create_checkin_rejects_invalid_input [] demoTokenUser ⟨6, "joy", 3, 3, 3, 3, none⟩ ⟨7⟩ (0 : Int)
    (Or.inl (by decide))

/-- C7 (amended): a list-check-ins request with an out-of-range month is
rejected with the month `BadRequest` only when a year is also supplied;
when `year` is absent the month parameter is ignored entirely — the
request behaves exactly as one with no month at all (no rejection, no
filter). -/
theorem list_checkins_month_validation (store : List Checkin) (user : TokenUser)
    (pg : Pagination) (m : Nat) (y : Int) (mo : Option Nat)
    (hbad : ¬(1 ≤ m ∧ m ≤ 12)) :
    get_user_checkins store user (some m) (some y) pg
      = some (.error (Error.BadRequest "Month must be between 1 and 12")) ∧
    get_user_checkins store user mo none pg
      = get_user_checkins store user none none pg := by
  constructor
  · simp only [get_user_checkins]
    rw [if_pos (by simp only [Bool.or_eq_true, decide_eq_true_eq]; omega)]
    rfl
  · cases mo <;> rfl

/-- C7 witness: instantiates `list_checkins_month_validation` at
`month = 13` with and without a year. -/
theorem list_checkins_month_validation_witness :
    get_user_checkins [] demoTokenUser (some 13) (some 2025) ⟨0, 10⟩
      = some (.error (Error.BadRequest "Month must be between 1 and 12")) ∧
    get_user_checkins [] demoTokenUser (some 13) none ⟨0, 10⟩
      = get_user_checkins [] demoTokenUser none none ⟨0, 10⟩ :=
  list_checkins_month_validation [] demoTokenUser ⟨0, 10⟩ 13 2025 (some 13) (by decide)

/-- C7 counterexample: a list request with `month = 13` but no year is
not rejected — it succeeds with the unfiltered (empty-store) page,
where the claim says every `month = 13` request fails with a
ValidationFailure. -/
theorem month_13_without_year_not_rejected :
    get_user_checkins [] demoTokenUser (some 13) none ⟨0, 10⟩
      = some (.ok
          { body := []
            pagination := some { count := 0, offset := 0, limit := 10 }
            status_code := StatusCode.OK }) := rfl
